import Mathlib

/-!
Shallow embedding of the book asset coordinator of the E-Book backend
(`src/book/bookController.ts`): the create / update / delete controllers,
the Cloudinary public-id derivation, and the temp-file bookkeeping.

External collaborators (Cloudinary uploader, the Mongo model, the local
filesystem) are modelled by response oracles passed in an environment
record; every external call the controller issues is recorded as an
`Event`, and the temp files removed by `fs.promises.unlink` are recorded
in `unlinked`.
-/

namespace EBook

/-- Splitting a character list at every occurrence of `sep`; mirrors the
semantics of JavaScript `String.prototype.split` with a one-character
separator (an empty input yields one empty segment, a trailing separator
yields a trailing empty segment). -/
def splitChars (sep : Char) : List Char → List (List Char)
  | [] => [[]]
  | c :: cs =>
    match splitChars sep cs with
    | [] => [[]]
    | r :: rs => if c = sep then [] :: r :: rs else (c :: r) :: rs

/-- JavaScript `s.split(sep)` for a one-character separator. -/
def jsSplit (s : String) (sep : Char) : List String :=
  (splitChars sep s.data).map (fun l => ⟨l⟩)

/-- JavaScript `l.at(-n)` for `n ≥ 1`: the `n`-th element from the end,
`undefined` (here `none`) when the list is shorter than `n`. -/
def jsAt (l : List α) (n : Nat) : Option α :=
  l.reverse[n - 1]?

/-- Coercing a possibly-`undefined` JavaScript string into a string, as
string concatenation does: `undefined` prints as `"undefined"`. -/
def jsStr (o : Option String) : String :=
  o.getD "undefined"

/-- `coverImagePublicId` as computed in `updateBook` and `deleteBook`:
`splits.at(-2) + "/" + splits.at(-1)?.split(".").at(-2)` over
`url.split("/")`. -/
def coverImagePublicId (url : String) : String :=
  let splits := jsSplit url '/'
  jsStr (jsAt splits 2) ++ "/" ++
    jsStr ((jsAt splits 1).bind (fun s => jsAt (jsSplit s '.') 2))

/-- `bookFilePublicId` as computed in `updateBook` and `deleteBook`:
`splits.at(-2) + "/" + splits.at(-1)` over `url.split("/")`. -/
def bookFilePublicId (url : String) : String :=
  let splits := jsSplit url '/'
  jsStr (jsAt splits 2) ++ "/" ++ jsStr (jsAt splits 1)

/-- `mimetype.split("/").at(-1)` — the subtype used as the upload format
for cover images. -/
def mimeSubtype (mimetype : String) : String :=
  jsStr (jsAt (jsSplit mimetype '/') 1)

/-- A multer-staged file as the controllers read it: `filename` (the name
of the temp file under the uploads directory) and `mimetype`. -/
structure StagedFile where
  filename : String
  mimetype : String
deriving DecidableEq, Repr

/-- `req.files` as the controllers read it: for each of the two named
fields, `none` when the field is absent and `some fs` when multer staged
the (possibly empty) list `fs` of files for it. -/
structure ReqFiles where
  coverImage : Option (List StagedFile)
  file : Option (List StagedFile)
deriving DecidableEq, Repr

/-- `path.resolve(__dirname, "../../public/data/uploads", filename)`,
modelled up to the constant directory prefix. -/
def tempPath (filename : String) : String :=
  "public/data/uploads/" ++ filename

/-- A persisted Book record (`bookModel`): both asset references are the
stored Cloudinary URLs. -/
structure Book where
  id : String
  title : String
  genre : String
  description : String
  author : String
  coverImage : String
  file : String
deriving DecidableEq, Repr

/-- Arguments of one `cloudinary.uploader.upload` call:
`filename_override`, `folder`, `format`, and whether
`resource_type: "raw"` was passed. -/
structure UploadCall where
  filename : String
  folder : String
  format : String
  raw : Bool
deriving DecidableEq, Repr

/-- Arguments of one `cloudinary.uploader.destroy` call: the public id and
whether `resource_type: "raw"` was passed. -/
structure DestroyCall where
  publicId : String
  raw : Bool
deriving DecidableEq, Repr

/-- The document `bookModel.create` is asked to persist (the id is chosen
by the database). -/
structure CreatePayload where
  title : String
  genre : String
  description : String
  author : String
  coverImage : String
  file : String
deriving DecidableEq, Repr

/-- The update document passed to `bookModel.findOneAndUpdate`. -/
structure UpdatePayload where
  title : String
  genre : String
  description : String
  coverImage : String
  file : String
deriving DecidableEq, Repr

/-- One external call issued by a controller, in issue order. -/
inductive Event where
  | upload : UploadCall → Event
  | destroy : DestroyCall → Event
  | dbCreate : CreatePayload → Event
  | dbFindOneAndUpdate : String → UpdatePayload → Event
  | dbDeleteOne : String → Event
deriving DecidableEq, Repr

/-- Response oracle for the Cloudinary uploader: `uploadResult c` is
`some secureUrl` when the upload succeeds and `none` when it throws;
`destroySucceeds c` tells whether the destroy call succeeds. -/
structure CloudEnv where
  uploadResult : UploadCall → Option String
  destroySucceeds : DestroyCall → Bool

/-- The controller's result for a create request. -/
inductive CreateResult where
  | created : String → CreateResult
  | err : Nat → String → CreateResult
deriving DecidableEq, Repr

/-- The controller's result for an update request; `updated none` is
`res.json(null)` (status 200 with a null body). -/
inductive UpdateResult where
  | updated : Option Book → UpdateResult
  | err : Nat → String → UpdateResult
deriving DecidableEq, Repr

/-- The controller's result for a delete request. -/
inductive DeleteResult where
  | deleted : String → String → DeleteResult
  | err : Nat → String → DeleteResult
deriving DecidableEq, Repr

/-- What one controller invocation did: its HTTP-level result, the
external calls it issued in order, and the temp-file paths it unlinked. -/
structure Outcome (ρ : Type) where
  result : ρ
  events : List Event
  unlinked : List String
deriving Repr

/-- Paths of every temp file multer staged for the request. -/
def stagedPaths (files : ReqFiles) : List String :=
  ((files.coverImage.getD []) ++ (files.file.getD [])).map
    (fun f => tempPath f.filename)

/-- Staged temp-file paths still on local storage when the request
completes. -/
def remainingTemps (files : ReqFiles) (out : Outcome ρ) : List String :=
  (stagedPaths files).filter (fun p => ! out.unlinked.contains p)

/-- Environment for `createBook`: the uploader oracle plus the result of
`bookModel.create` (`some id` = the new record's id, `none` = the call
throws). -/
structure CreateEnv where
  cloud : CloudEnv
  createId : Option String

/-- `createBook`, step for step. Cover-image presence is checked first;
the cover is uploaded; only then is book-file presence checked; the book
file is uploaded; the record is created; finally both temp files are
unlinked. Any thrown error is caught and mapped to
500 "Error while uploading the files.". -/
def createBook (title genre description userId : String)
    (files : ReqFiles) (env : CreateEnv) : Outcome CreateResult :=
  match files.coverImage with
  | none => ⟨.err 400 "Cover image is required.", [], []⟩
  | some [] => ⟨.err 400 "Cover image is required.", [], []⟩
  | some (cover :: _) =>
    let coverCall : UploadCall :=
      ⟨cover.filename, "book-covers", mimeSubtype cover.mimetype, false⟩
    match env.cloud.uploadResult coverCall with
    | none => ⟨.err 500 "Error while uploading the files.",
        [.upload coverCall], []⟩
    | some coverUrl =>
      match files.file with
      | none => ⟨.err 400 "Book file is required.", [.upload coverCall], []⟩
      | some [] => ⟨.err 400 "Book file is required.", [.upload coverCall], []⟩
      | some (bookFile :: _) =>
        let fileCall : UploadCall := ⟨bookFile.filename, "book-pdfs", "pdf", true⟩
        match env.cloud.uploadResult fileCall with
        | none => ⟨.err 500 "Error while uploading the files.",
            [.upload coverCall, .upload fileCall], []⟩
        | some fileUrl =>
          let payload : CreatePayload :=
            ⟨title, genre, description, userId, coverUrl, fileUrl⟩
          match env.createId with
          | none => ⟨.err 500 "Error while uploading the files.",
              [.upload coverCall, .upload fileCall, .dbCreate payload], []⟩
          | some newId =>
            ⟨.created newId,
             [.upload coverCall, .upload fileCall, .dbCreate payload],
             [tempPath cover.filename, tempPath bookFile.filename]⟩

/-- Result of one asset branch of `updateBook`. -/
structure StepOut where
  err : Option (Nat × String)
  url : String
  events : List Event
  unlinked : List String

/-- One asset branch of `updateBook` (lines 139–161 for the cover, lines
164–189 for the book file): when a file is staged for the field, destroy
the old blob (guarded by JavaScript truthiness of the public id) and then
upload the new file, unlinking the temp file afterwards. Accessing
`files.f[0]` of an empty staged list throws, as do failing destroy and
upload calls; every throw is caught by the controller's catch, which
returns 500 "Error while updating records.". -/
def updateAssetStep (publicId current folder : String)
    (fmtOf : StagedFile → String) (raw : Bool)
    (staged : Option (List StagedFile)) (cloud : CloudEnv) : StepOut :=
  match staged with
  | none => ⟨none, current, [], []⟩
  | some [] => ⟨some (500, "Error while updating records."), current, [], []⟩
  | some (f :: _) =>
    let ucall : UploadCall := ⟨f.filename, folder, fmtOf f, raw⟩
    let dcall : DestroyCall := ⟨publicId, raw⟩
    if publicId = "" then
      match cloud.uploadResult ucall with
      | none => ⟨some (500, "Error while updating records."), current,
          [.upload ucall], []⟩
      | some url => ⟨none, url, [.upload ucall], [tempPath f.filename]⟩
    else
      if cloud.destroySucceeds dcall then
        match cloud.uploadResult ucall with
        | none => ⟨some (500, "Error while updating records."), current,
            [.destroy dcall, .upload ucall], []⟩
        | some url =>
          ⟨none, url, [.destroy dcall, .upload ucall], [tempPath f.filename]⟩
      else
        ⟨some (500, "Error while updating records."), current,
          [.destroy dcall], []⟩

/-- Environment for `updateBook`: the uploader oracle plus the response
of `bookModel.findOneAndUpdate` (`none` = the call throws; `some r` = the
call returns `r`, where `r = none` is Mongo's null for "no record matched
the id", possible when the record was deleted concurrently). -/
structure UpdateEnv where
  cloud : CloudEnv
  updateResult : Option (Option Book)

/-- `updateBook`, step for step: fetch by id (404 when absent), authorize
the requester against `book.author` (403 on mismatch), derive both public
ids from the stored URLs, run the cover branch and then the book-file
branch, and persist the merged document via `findOneAndUpdate`, returning
whatever document that call reports (possibly null). -/
def updateBook (db : List Book) (bookId title genre description userId : String)
    (files : ReqFiles) (env : UpdateEnv) : Outcome UpdateResult :=
  match db.find? (fun b => b.id == bookId) with
  | none => ⟨.err 404 "Book not found.", [], []⟩
  | some book =>
    if book.author = userId then
      let c := updateAssetStep (coverImagePublicId book.coverImage)
        book.coverImage "book-covers" (fun f => mimeSubtype f.mimetype) false
        files.coverImage env.cloud
      match c.err with
      | some e => ⟨.err e.1 e.2, c.events, c.unlinked⟩
      | none =>
        let d := updateAssetStep (bookFilePublicId book.file)
          book.file "book-pdfs" (fun _ => "pdf") true files.file env.cloud
        match d.err with
        | some e => ⟨.err e.1 e.2, c.events ++ d.events, c.unlinked ++ d.unlinked⟩
        | none =>
          let payload : UpdatePayload :=
            ⟨title, genre, description, c.url, d.url⟩
          match env.updateResult with
          | none => ⟨.err 500 "Error while updating records.",
              c.events ++ d.events ++ [.dbFindOneAndUpdate bookId payload],
              c.unlinked ++ d.unlinked⟩
          | some r => ⟨.updated r,
              c.events ++ d.events ++ [.dbFindOneAndUpdate bookId payload],
              c.unlinked ++ d.unlinked⟩
    else ⟨.err 403 "You cannot update another's book.", [], []⟩

/-- Environment for `deleteBook`: the uploader oracle plus whether
`bookModel.deleteOne` succeeds. -/
structure DeleteEnv where
  cloud : CloudEnv
  deleteOk : Bool

/-- `deleteBook`, step for step: fetch by id (404 when absent), authorize
(403 on mismatch), derive both public ids, destroy the cover and then the
raw book file (a failure of either is caught and mapped to
500 "Error deleting files from Cloudinary." before the record is
touched), then `deleteOne` the record (failure → 500) and answer 201. -/
def deleteBook (db : List Book) (bookId userId : String)
    (env : DeleteEnv) : Outcome DeleteResult :=
  match db.find? (fun b => b.id == bookId) with
  | none => ⟨.err 404 "Book not found.", [], []⟩
  | some book =>
    if book.author = userId then
      let cd : DestroyCall := ⟨coverImagePublicId book.coverImage, false⟩
      let fd : DestroyCall := ⟨bookFilePublicId book.file, true⟩
      if env.cloud.destroySucceeds cd then
        if env.cloud.destroySucceeds fd then
          if env.deleteOk then
            ⟨.deleted bookId "Book deleted successfully.",
             [.destroy cd, .destroy fd, .dbDeleteOne bookId], []⟩
          else
            ⟨.err 500 "Error deleting book from database.",
             [.destroy cd, .destroy fd, .dbDeleteOne bookId], []⟩
        else
          ⟨.err 500 "Error deleting files from Cloudinary.",
           [.destroy cd, .destroy fd], []⟩
      else
        ⟨.err 500 "Error deleting files from Cloudinary.",
         [.destroy cd], []⟩
    else ⟨.err 403 "You can not update other book.", [], []⟩

/-- `getSingleBook`: fetch by id, 404 when absent. -/
def getSingleBook (db : List Book) (bookId : String) :
    Except (Nat × String) Book :=
  match db.find? (fun b => b.id == bookId) with
  | none => .error (404, "Book not found.")
  | some b => .ok b

/-- Effect of one recorded database call on the persisted record store;
`deleteOne` removes the first record matching the id filter. -/
def applyDbEvent (db : List Book) : Event → List Book
  | .dbDeleteOne bookId => db.eraseP (fun b => b.id == bookId)
  | _ => db

/-- Replaying a controller's recorded database calls over a record store. -/
def applyDbEvents (db : List Book) (es : List Event) : List Book :=
  es.foldl applyDbEvent db

/-- A Cloudinary oracle on which every call succeeds, answering uploads
with a URL in the call's folder. -/
def cloudAllOk : CloudEnv :=
  ⟨fun c => some ("https://r/" ++ c.folder ++ "/" ++ c.filename), fun _ => true⟩

/-- A Cloudinary oracle on which image-kind destroys succeed but raw
destroys and all uploads fail. -/
def cloudRawDestroyFails : CloudEnv :=
  ⟨fun _ => none, fun d => !d.raw⟩

/-- A Cloudinary oracle on which every destroy fails. -/
def cloudDestroyFails : CloudEnv :=
  ⟨fun c => some ("https://r/" ++ c.folder ++ "/" ++ c.filename), fun _ => false⟩

/-- A well-formed persisted book used as a concrete test record. -/
def bkW : Book :=
  ⟨"b1", "T", "G", "D", "owner", "https://r/book-covers/abc.png",
   "https://r/book-pdfs/doc.pdf"⟩

/-- A persisted book whose stored URLs have a single path segment. -/
def bkMalformed : Book :=
  ⟨"b1", "T", "G", "D", "owner", "abc", "xyz"⟩

/-- A staged cover-image file. -/
def coverFileW : StagedFile := ⟨"c.png", "image/png"⟩

/-- A staged book file. -/
def bookFileW : StagedFile := ⟨"d.pdf", "application/pdf"⟩

/-- A request that stages only the cover image. -/
def filesCoverOnly : ReqFiles := ⟨some [coverFileW], none⟩

/-- A request that stages both files. -/
def filesBothW : ReqFiles := ⟨some [coverFileW], some [bookFileW]⟩

/-- A request that stages nothing. -/
def filesNone : ReqFiles := ⟨none, none⟩

end EBook

namespace EBook

theorem splitChars_ne_nil (sep : Char) (l : List Char) :
    splitChars sep l ≠ [] := by
  cases l with
  | nil => simp [splitChars]
  | cons c cs =>
    simp only [splitChars]
    cases h : splitChars sep cs with
    | nil => simp
    | cons r rs =>
      by_cases hc : c = sep <;> simp [hc]

theorem splitChars_append (sep : Char) (xs ys : List Char) :
    splitChars sep (xs ++ sep :: ys)
      = splitChars sep xs ++ splitChars sep ys := by
  induction xs with
  | nil =>
    simp only [List.nil_append, splitChars]
    cases h : splitChars sep ys with
    | nil => exact absurd h (splitChars_ne_nil sep ys)
    | cons r rs => simp
  | cons c cs ih =>
    simp only [List.cons_append, splitChars, List.append_eq]
    rw [ih]
    cases h : splitChars sep cs with
    | nil => exact absurd h (splitChars_ne_nil sep cs)
    | cons r rs =>
      by_cases hc : c = sep <;> simp [hc]

theorem splitChars_of_not_mem (sep : Char) (l : List Char)
    (h : sep ∉ l) : splitChars sep l = [l] := by
  induction l with
  | nil => rfl
  | cons c cs ih =>
    simp only [List.mem_cons, not_or] at h
    have hc : ¬ c = sep := fun hceq => h.1 hceq.symm
    simp only [splitChars, ih h.2]
    simp [hc]

theorem jsSplit_three_segments (pre folder base : String)
    (hf : '/' ∉ folder.data) (hb : '/' ∉ base.data) :
    jsSplit (pre ++ "/" ++ folder ++ "/" ++ base) '/'
      = jsSplit pre '/' ++ [folder, base] := by
  have hdata : (pre ++ "/" ++ folder ++ "/" ++ base).data
      = pre.data ++ '/' :: (folder.data ++ '/' :: base.data) := by
    simp [String.data_append]
  simp only [jsSplit, hdata, splitChars_append,
    splitChars_of_not_mem '/' folder.data hf,
    splitChars_of_not_mem '/' base.data hb]
  simp

theorem jsAt_append_two (l : List α) (a b : α) :
    jsAt (l ++ [a, b]) 2 = some a := by
  simp [jsAt, List.reverse_append]

theorem jsAt_append_one (l : List α) (a b : α) :
    jsAt (l ++ [a, b]) 1 = some b := by
  simp [jsAt, List.reverse_append]

theorem slash_concat_ne_empty (a b : String) : a ++ "/" ++ b ≠ "" := by
  intro h
  have hd := congrArg String.data h
  simp [String.data_append] at hd

theorem coverImagePublicId_ne_empty (url : String) :
    coverImagePublicId url ≠ "" :=
  slash_concat_ne_empty _ _

theorem bookFilePublicId_ne_empty (url : String) :
    bookFilePublicId url ≠ "" :=
  slash_concat_ne_empty _ _

theorem updateAssetStep_none (pid cur folder : String)
    (fmtOf : StagedFile → String) (raw : Bool) (cloud : CloudEnv) :
    updateAssetStep pid cur folder fmtOf raw none cloud
      = ⟨none, cur, [], []⟩ := rfl

theorem updateAssetStep_empty (pid cur folder : String)
    (fmtOf : StagedFile → String) (raw : Bool) (cloud : CloudEnv) :
    updateAssetStep pid cur folder fmtOf raw (some []) cloud
      = ⟨some (500, "Error while updating records."), cur, [], []⟩ := rfl

theorem updateAssetStep_destroy_fail (pid cur folder : String)
    (fmtOf : StagedFile → String) (raw : Bool) (f : StagedFile)
    (fs : List StagedFile) (cloud : CloudEnv)
    (hpid : pid ≠ "") (hd : cloud.destroySucceeds ⟨pid, raw⟩ = false) :
    updateAssetStep pid cur folder fmtOf raw (some (f :: fs)) cloud
      = ⟨some (500, "Error while updating records."), cur,
         [.destroy ⟨pid, raw⟩], []⟩ := by
  simp [updateAssetStep, hpid, hd]

theorem updateAssetStep_upload_fail (pid cur folder : String)
    (fmtOf : StagedFile → String) (raw : Bool) (f : StagedFile)
    (fs : List StagedFile) (cloud : CloudEnv)
    (hpid : pid ≠ "") (hd : cloud.destroySucceeds ⟨pid, raw⟩ = true)
    (hu : cloud.uploadResult ⟨f.filename, folder, fmtOf f, raw⟩ = none) :
    updateAssetStep pid cur folder fmtOf raw (some (f :: fs)) cloud
      = ⟨some (500, "Error while updating records."), cur,
         [.destroy ⟨pid, raw⟩,
          .upload ⟨f.filename, folder, fmtOf f, raw⟩], []⟩ := by
  simp [updateAssetStep, hpid, hd, hu]

theorem updateAssetStep_ok (pid cur folder : String)
    (fmtOf : StagedFile → String) (raw : Bool) (f : StagedFile)
    (fs : List StagedFile) (cloud : CloudEnv) (url : String)
    (hpid : pid ≠ "") (hd : cloud.destroySucceeds ⟨pid, raw⟩ = true)
    (hu : cloud.uploadResult ⟨f.filename, folder, fmtOf f, raw⟩ = some url) :
    updateAssetStep pid cur folder fmtOf raw (some (f :: fs)) cloud
      = ⟨none, url,
         [.destroy ⟨pid, raw⟩,
          .upload ⟨f.filename, folder, fmtOf f, raw⟩],
         [tempPath f.filename]⟩ := by
  simp [updateAssetStep, hpid, hd, hu]

theorem updateAssetStep_cases (pid cur folder : String)
    (fmtOf : StagedFile → String) (raw : Bool)
    (staged : Option (List StagedFile)) (cloud : CloudEnv)
    (hpid : pid ≠ "") :
    (staged = none ∧
      updateAssetStep pid cur folder fmtOf raw staged cloud
        = ⟨none, cur, [], []⟩) ∨
    (staged = some [] ∧
      updateAssetStep pid cur folder fmtOf raw staged cloud
        = ⟨some (500, "Error while updating records."), cur, [], []⟩) ∨
    (∃ f fs, staged = some (f :: fs) ∧
      ((cloud.destroySucceeds ⟨pid, raw⟩ = false ∧
        updateAssetStep pid cur folder fmtOf raw staged cloud
          = ⟨some (500, "Error while updating records."), cur,
             [.destroy ⟨pid, raw⟩], []⟩) ∨
       (cloud.destroySucceeds ⟨pid, raw⟩ = true ∧
        cloud.uploadResult ⟨f.filename, folder, fmtOf f, raw⟩ = none ∧
        updateAssetStep pid cur folder fmtOf raw staged cloud
          = ⟨some (500, "Error while updating records."), cur,
             [.destroy ⟨pid, raw⟩,
              .upload ⟨f.filename, folder, fmtOf f, raw⟩], []⟩) ∨
       ∃ url, cloud.destroySucceeds ⟨pid, raw⟩ = true ∧
         cloud.uploadResult ⟨f.filename, folder, fmtOf f, raw⟩ = some url ∧
         updateAssetStep pid cur folder fmtOf raw staged cloud
          = ⟨none, url,
             [.destroy ⟨pid, raw⟩,
              .upload ⟨f.filename, folder, fmtOf f, raw⟩],
             [tempPath f.filename]⟩)) := by
  cases staged with
  | none => exact Or.inl ⟨rfl, updateAssetStep_none pid cur folder fmtOf raw cloud⟩
  | some l =>
    cases l with
    | nil =>
      exact Or.inr (Or.inl ⟨rfl, updateAssetStep_empty pid cur folder fmtOf raw cloud⟩)
    | cons f fs =>
      refine Or.inr (Or.inr ⟨f, fs, rfl, ?_⟩)
      cases hd : cloud.destroySucceeds ⟨pid, raw⟩ with
      | false =>
        exact Or.inl ⟨rfl,
          updateAssetStep_destroy_fail pid cur folder fmtOf raw f fs cloud hpid hd⟩
      | true =>
        cases hu : cloud.uploadResult ⟨f.filename, folder, fmtOf f, raw⟩ with
        | none =>
          exact Or.inr (Or.inl ⟨rfl, rfl,
            updateAssetStep_upload_fail pid cur folder fmtOf raw f fs cloud hpid hd hu⟩)
        | some url =>
          exact Or.inr (Or.inr ⟨url, rfl, rfl,
            updateAssetStep_ok pid cur folder fmtOf raw f fs cloud url hpid hd hu⟩)

theorem find?_eq_none_of_id_not_mem (db : List Book) (bookId : String)
    (h : bookId ∉ db.map Book.id) :
    db.find? (fun b => b.id == bookId) = none := by
  apply List.find?_eq_none.mpr
  intro b hb
  simp only [beq_iff_eq]
  intro heq
  exact h (heq ▸ List.mem_map_of_mem Book.id hb)

theorem find?_eraseP_eq_none (db : List Book) (bookId : String)
    (h : (db.map Book.id).Nodup) :
    (db.eraseP (fun b => b.id == bookId)).find? (fun b => b.id == bookId)
      = none := by
  induction db with
  | nil => rfl
  | cons b rest ih =>
    simp only [List.map_cons, List.nodup_cons] at h
    cases hb : (b.id == bookId) with
    | true =>
      simp only [List.eraseP_cons, hb, cond_true]
      apply find?_eq_none_of_id_not_mem
      have hid : b.id = bookId := beq_iff_eq.mp hb
      rw [← hid]
      exact h.1
    | false =>
      simp only [List.eraseP_cons, hb, cond_false]
      simp only [List.find?_cons, hb]
      exact ih h.2

/-- C8: an update whose requester id differs from the record's owner id
returns 403 "You cannot update another's book." and issues no external
call at all — no destroy, no upload, no persistence call — and unlinks
nothing, so the record, both asset references and both remote assets are
untouched. -/
theorem c8_forbidden_no_mutation (db : List Book)
    (bookId title genre description userId : String) (files : ReqFiles)
    (env : UpdateEnv) (book : Book)
    (hfind : db.find? (fun b => b.id == bookId) = some book)
    (hauth : book.author ≠ userId) :
    updateBook db bookId title genre description userId files env
      = ⟨.err 403 "You cannot update another's book.", [], []⟩ := by
  simp [updateBook, hfind, hauth]

theorem c8_witness :
    updateBook [bkW] "b1" "T2" "G" "D" "intruder" filesNone
        ⟨cloudAllOk, some (some bkW)⟩
      = ⟨.err 403 "You cannot update another's book.", [], []⟩ :=
  c8_forbidden_no_mutation [bkW] "b1" "T2" "G" "D" "intruder" filesNone
    ⟨cloudAllOk, some (some bkW)⟩ bkW (by decide) (by decide)

/-- C10: whenever an update invocation reaches the persistence step
(a `findOneAndUpdate` call is recorded) and that call reports no matching
record (returns null, e.g. after a concurrent delete), the controller does
not answer 404: it responds success with a null body. -/
theorem c10_race_lost_update_null_body (db : List Book)
    (bookId title genre description userId : String) (files : ReqFiles)
    (env : UpdateEnv) (id2 : String) (p : UpdatePayload)
    (hres : env.updateResult = some none)
    (hev : Event.dbFindOneAndUpdate id2 p
      ∈ (updateBook db bookId title genre description userId files env).events) :
    (updateBook db bookId title genre description userId files env).result
      = .updated none ∧
    ∀ s, (updateBook db bookId title genre description userId files env).result
      ≠ .err 404 s := by
  cases hfind : db.find? (fun b => b.id == bookId) with
  | none => simp [updateBook, hfind] at hev
  | some book =>
    by_cases hauth : book.author = userId
    · rcases updateAssetStep_cases (coverImagePublicId book.coverImage)
        book.coverImage "book-covers" (fun f => mimeSubtype f.mimetype) false
        files.coverImage env.cloud (coverImagePublicId_ne_empty _) with
        ⟨hs, heq⟩ | ⟨hs, heq⟩ | ⟨f, fs, hs, ⟨hd, heq⟩ | ⟨hd, hu, heq⟩ | ⟨url, hd, hu, heq⟩⟩
      · rcases updateAssetStep_cases (bookFilePublicId book.file)
          book.file "book-pdfs" (fun _ => "pdf") true
          files.file env.cloud (bookFilePublicId_ne_empty _) with
          ⟨hs2, heq2⟩ | ⟨hs2, heq2⟩ | ⟨g, gs, hs2, ⟨hd2, heq2⟩ | ⟨hd2, hu2, heq2⟩ | ⟨url2, hd2, hu2, heq2⟩⟩ <;>
          simp [updateBook, hfind, hauth, heq, heq2, hres] at hev ⊢
      · simp [updateBook, hfind, hauth, heq] at hev
      · simp [updateBook, hfind, hauth, heq] at hev
      · simp [updateBook, hfind, hauth, heq] at hev
      · rcases updateAssetStep_cases (bookFilePublicId book.file)
          book.file "book-pdfs" (fun _ => "pdf") true
          files.file env.cloud (bookFilePublicId_ne_empty _) with
          ⟨hs2, heq2⟩ | ⟨hs2, heq2⟩ | ⟨g, gs, hs2, ⟨hd2, heq2⟩ | ⟨hd2, hu2, heq2⟩ | ⟨url2, hd2, hu2, heq2⟩⟩ <;>
          simp [updateBook, hfind, hauth, heq, heq2, hres] at hev ⊢
    · simp [updateBook, hfind, hauth] at hev

theorem c10_witness :
    (updateBook [bkW] "b1" "T2" "G" "D" "owner" filesNone
        ⟨cloudAllOk, some none⟩).result = .updated none ∧
    ∀ s, (updateBook [bkW] "b1" "T2" "G" "D" "owner" filesNone
        ⟨cloudAllOk, some none⟩).result ≠ .err 404 s :=
  c10_race_lost_update_null_body [bkW] "b1" "T2" "G" "D" "owner" filesNone
    ⟨cloudAllOk, some none⟩ "b1"
    ⟨"T2", "G", "D", bkW.coverImage, bkW.file⟩ rfl (by decide)

/-- C7: a delete invocation on an existing, owned record whose two destroy
calls and database delete succeed answers 201 "Book deleted
successfully.", issues exactly two destroy calls — the image-kind one with
the cover identifier derived from the stored cover URL, then the raw-kind
one (the same raw flag used at upload time) with the document identifier
derived from the stored file URL — and removes the metadata record, so a
subsequent fetch of the same id yields 404. -/
theorem c7_delete_success (db : List Book) (bookId userId : String)
    (env : DeleteEnv) (book : Book)
    (hnodup : (db.map Book.id).Nodup)
    (hfind : db.find? (fun b => b.id == bookId) = some book)
    (hauth : book.author = userId)
    (hd1 : env.cloud.destroySucceeds
      ⟨coverImagePublicId book.coverImage, false⟩ = true)
    (hd2 : env.cloud.destroySucceeds
      ⟨bookFilePublicId book.file, true⟩ = true)
    (hdb : env.deleteOk = true) :
    deleteBook db bookId userId env
      = ⟨.deleted bookId "Book deleted successfully.",
         [.destroy ⟨coverImagePublicId book.coverImage, false⟩,
          .destroy ⟨bookFilePublicId book.file, true⟩,
          .dbDeleteOne bookId], []⟩ ∧
    getSingleBook (applyDbEvents db (deleteBook db bookId userId env).events)
        bookId
      = .error (404, "Book not found.") := by
  have h1 : deleteBook db bookId userId env
      = ⟨.deleted bookId "Book deleted successfully.",
         [.destroy ⟨coverImagePublicId book.coverImage, false⟩,
          .destroy ⟨bookFilePublicId book.file, true⟩,
          .dbDeleteOne bookId], []⟩ := by
    simp [deleteBook, hfind, hauth, hd1, hd2, hdb]
  refine ⟨h1, ?_⟩
  rw [h1]
  simp only [applyDbEvents, List.foldl, applyDbEvent]
  simp [getSingleBook, find?_eraseP_eq_none db bookId hnodup]

theorem c7_witness :
    deleteBook [bkW] "b1" "owner" ⟨cloudAllOk, true⟩
      = ⟨.deleted "b1" "Book deleted successfully.",
         [.destroy ⟨"book-covers/abc", false⟩,
          .destroy ⟨"book-pdfs/doc.pdf", true⟩,
          .dbDeleteOne "b1"], []⟩ ∧
    getSingleBook
        (applyDbEvents [bkW] (deleteBook [bkW] "b1" "owner" ⟨cloudAllOk, true⟩).events)
        "b1"
      = .error (404, "Book not found.") := by
  have h := c7_delete_success [bkW] "b1" "owner" ⟨cloudAllOk, true⟩ bkW
    (by decide) (by decide) (by decide) (by decide) (by decide) (by decide)
  refine ⟨?_, h.2⟩
  rw [h.1]
  rfl

/-- C9: a successful update staging a new cover image and no book file
destroys and re-uploads only the image-kind asset and persists an update
document whose `file` field is byte-for-byte the record's existing
document URL — only the cover reference (and its remote blob) changes. -/
theorem c9_document_ref_unchanged (db : List Book)
    (bookId title genre description userId : String) (env : UpdateEnv)
    (book : Book) (f : StagedFile) (url : String) (r : Option Book)
    (hfind : db.find? (fun b => b.id == bookId) = some book)
    (hauth : book.author = userId)
    (hd : env.cloud.destroySucceeds
      ⟨coverImagePublicId book.coverImage, false⟩ = true)
    (hu : env.cloud.uploadResult
      ⟨f.filename, "book-covers", mimeSubtype f.mimetype, false⟩ = some url)
    (hr : env.updateResult = some r) :
    updateBook db bookId title genre description userId ⟨some [f], none⟩ env
      = ⟨.updated r,
         [.destroy ⟨coverImagePublicId book.coverImage, false⟩,
          .upload ⟨f.filename, "book-covers", mimeSubtype f.mimetype, false⟩,
          .dbFindOneAndUpdate bookId ⟨title, genre, description, url, book.file⟩],
         [tempPath f.filename]⟩ := by
  have hstep := updateAssetStep_ok (coverImagePublicId book.coverImage)
    book.coverImage "book-covers" (fun g => mimeSubtype g.mimetype) false f []
    env.cloud url (coverImagePublicId_ne_empty _) hd hu
  simp [updateBook, hfind, hauth, hstep, updateAssetStep_none, hr]

theorem c9_witness :
    updateBook [bkW] "b1" "T2" "G" "D" "owner" ⟨some [coverFileW], none⟩
        ⟨cloudAllOk, some (some bkW)⟩
      = ⟨.updated (some bkW),
         [.destroy ⟨"book-covers/abc", false⟩,
          .upload ⟨"c.png", "book-covers", "png", false⟩,
          .dbFindOneAndUpdate "b1"
            ⟨"T2", "G", "D", "https://r/book-covers/c.png",
             "https://r/book-pdfs/doc.pdf"⟩],
         ["public/data/uploads/c.png"]⟩ := by
  have h := c9_document_ref_unchanged [bkW] "b1" "T2" "G" "D" "owner"
    ⟨cloudAllOk, some (some bkW)⟩ bkW coverFileW
    "https://r/book-covers/c.png" (some bkW)
    (by decide) (by decide) (by decide) (by decide) (by decide)
  rw [h]
  rfl


/-- C2, counterexample: a create invocation staging only the cover image
(book file absent) returns 400 "Book file is required." — but an upload
call for the cover asset has already been issued, contradicting "no
remote-store upload call is made for either asset". -/
theorem c2_counterexample :
    (createBook "t" "g" "d" "u" filesCoverOnly ⟨cloudAllOk, some "id1"⟩).result
      = .err 400 "Book file is required." ∧
    Event.upload ⟨"c.png", "book-covers", "png", false⟩
      ∈ (createBook "t" "g" "d" "u" filesCoverOnly ⟨cloudAllOk, some "id1"⟩).events := by
  decide

/-- C2, amended: a create invocation with the cover staged and the file
field absent or empty never calls `bookModel.create` and never uploads the
document asset; however the cover upload is issued first — if it succeeds
the response is 400 "Book file is required." (with the cover already
uploaded), and if it fails the response is 500. -/
theorem c2_cover_only_no_record (title genre description userId : String)
    (files : ReqFiles) (env : CreateEnv) (c : StagedFile) (cs : List StagedFile)
    (hcov : files.coverImage = some (c :: cs))
    (hfile : files.file = none ∨ files.file = some []) :
    (∀ p, Event.dbCreate p
      ∉ (createBook title genre description userId files env).events) ∧
    (∀ u, Event.upload u
        ∈ (createBook title genre description userId files env).events →
      u = ⟨c.filename, "book-covers", mimeSubtype c.mimetype, false⟩) ∧
    (∀ url, env.cloud.uploadResult
        ⟨c.filename, "book-covers", mimeSubtype c.mimetype, false⟩ = some url →
      (createBook title genre description userId files env).result
        = .err 400 "Book file is required." ∧
      Event.upload ⟨c.filename, "book-covers", mimeSubtype c.mimetype, false⟩
        ∈ (createBook title genre description userId files env).events) ∧
    (env.cloud.uploadResult
        ⟨c.filename, "book-covers", mimeSubtype c.mimetype, false⟩ = none →
      (createBook title genre description userId files env).result
        = .err 500 "Error while uploading the files.") := by
  cases hu : env.cloud.uploadResult
      ⟨c.filename, "book-covers", mimeSubtype c.mimetype, false⟩ <;>
    rcases hfile with hfile | hfile <;>
    simp [createBook, hcov, hfile, hu]

theorem c2_witness :
    (∀ p, Event.dbCreate p
      ∉ (createBook "t" "g" "d" "u" ⟨some [coverFileW], some []⟩
          ⟨cloudAllOk, some "id1"⟩).events) ∧
    (∀ u, Event.upload u
        ∈ (createBook "t" "g" "d" "u" ⟨some [coverFileW], some []⟩
            ⟨cloudAllOk, some "id1"⟩).events →
      u = ⟨"c.png", "book-covers", mimeSubtype "image/png", false⟩) :=
  have h := c2_cover_only_no_record "t" "g" "d" "u"
    ⟨some [coverFileW], some []⟩ ⟨cloudAllOk, some "id1"⟩ coverFileW []
    rfl (Or.inr rfl)
  ⟨h.1, h.2.1⟩

/-- C3, counterexample: for a stored URL whose basename holds more than
one dot, the image identifier is NOT the basename with everything after
the final dot stripped: the code takes the second-to-last dot-separated
component (`"a.b.png"` gives `"b"`, not `"a.b"`). -/
theorem c3_counterexample :
    coverImagePublicId "https://x/book-covers/a.b.png" = "book-covers/b" ∧
    "book-covers/b" ≠ "book-covers/a.b" := by
  decide

/-- C3, amended: identifier derivation is a pure function of the stored
URL; the spec examples hold, and in general, for a URL ending in
`<folder>/<basename>` (segments slash-free), the document identifier is
`folder/basename` and the image identifier is `folder/` followed by the
second-to-last dot-separated component of the basename (which equals the
basename without its extension exactly when the basename holds a single
dot). -/
theorem c3_codec :
    coverImagePublicId "https://res.example.com/x/book-covers/abc123.png"
      = "book-covers/abc123" ∧
    bookFilePublicId "https://res.example.com/x/book-pdfs/doc987.pdf"
      = "book-pdfs/doc987.pdf" ∧
    ∀ pre folder base : String, '/' ∉ folder.data → '/' ∉ base.data →
      coverImagePublicId (pre ++ "/" ++ folder ++ "/" ++ base)
        = folder ++ "/" ++ jsStr (jsAt (jsSplit base '.') 2) ∧
      bookFilePublicId (pre ++ "/" ++ folder ++ "/" ++ base)
        = folder ++ "/" ++ base := by
  refine ⟨by decide, by decide, ?_⟩
  intro pre folder base hfo hb
  have hsplit := jsSplit_three_segments pre folder base hfo hb
  constructor
  · simp only [coverImagePublicId, hsplit, jsAt_append_two, jsAt_append_one,
      Option.some_bind, jsStr, Option.getD_some]
  · simp only [bookFilePublicId, hsplit, jsAt_append_two, jsAt_append_one,
      jsStr, Option.getD_some]

theorem c3_witness :
    coverImagePublicId ("https://x" ++ "/" ++ "book-covers" ++ "/" ++ "a.png")
      = "book-covers" ++ "/" ++ jsStr (jsAt (jsSplit "a.png" '.') 2) ∧
    bookFilePublicId ("https://x" ++ "/" ++ "book-pdfs" ++ "/" ++ "d.pdf")
      = "book-pdfs" ++ "/" ++ "d.pdf" :=
  ⟨(c3_codec.2.2 "https://x" "book-covers" "a.png"
      (by decide) (by decide)).1,
   (c3_codec.2.2 "https://x" "book-pdfs" "d.pdf"
      (by decide) (by decide)).2⟩

/-- C4, counterexample: the cover destroy succeeds and the raw document
destroy fails; the delete aborts with 500 before the metadata record is
touched, but the cover destroy has already been issued and succeeded — the
remote assets do NOT remain with "nothing deleted". -/
theorem c4_counterexample :
    (deleteBook [bkW] "b1" "owner" ⟨cloudRawDestroyFails, true⟩).result
      = .err 500 "Error deleting files from Cloudinary." ∧
    (deleteBook [bkW] "b1" "owner" ⟨cloudRawDestroyFails, true⟩).events
      = [.destroy ⟨"book-covers/abc", false⟩,
         .destroy ⟨"book-pdfs/doc.pdf", true⟩] ∧
    cloudRawDestroyFails.destroySucceeds ⟨"book-covers/abc", false⟩ = true := by
  decide

/-- C4, amended: if either destroy fails, the delete aborts with 500
before any metadata-store call — the record is untouched; and when the
FIRST (cover) destroy fails nothing at all has been deleted. A cover
destroy that already succeeded before the failing document destroy is not
rolled back. -/
theorem c4_destroy_failure_aborts (db : List Book) (bookId userId : String)
    (env : DeleteEnv) (book : Book)
    (hfind : db.find? (fun b => b.id == bookId) = some book)
    (hauth : book.author = userId)
    (hfail : env.cloud.destroySucceeds
        ⟨coverImagePublicId book.coverImage, false⟩ = false ∨
      env.cloud.destroySucceeds ⟨bookFilePublicId book.file, true⟩ = false) :
    (deleteBook db bookId userId env).result
      = .err 500 "Error deleting files from Cloudinary." ∧
    (∀ id, Event.dbDeleteOne id ∉ (deleteBook db bookId userId env).events) ∧
    (env.cloud.destroySucceeds
        ⟨coverImagePublicId book.coverImage, false⟩ = false →
      (deleteBook db bookId userId env).events
        = [.destroy ⟨coverImagePublicId book.coverImage, false⟩]) := by
  cases hd1 : env.cloud.destroySucceeds
      ⟨coverImagePublicId book.coverImage, false⟩ <;>
    cases hd2 : env.cloud.destroySucceeds
        ⟨bookFilePublicId book.file, true⟩ <;>
    simp [hd1, hd2] at hfail ⊢ <;>
    simp [deleteBook, hfind, hauth, hd1, hd2]

theorem c4_witness :
    (deleteBook [bkW] "b1" "owner" ⟨cloudDestroyFails, true⟩).result
      = .err 500 "Error deleting files from Cloudinary." ∧
    (deleteBook [bkW] "b1" "owner" ⟨cloudDestroyFails, true⟩).events
      = [.destroy ⟨"book-covers/abc", false⟩] :=
  have h := c4_destroy_failure_aborts [bkW] "b1" "owner"
    ⟨cloudDestroyFails, true⟩ bkW (by decide) (by decide) (Or.inl rfl)
  ⟨h.1, h.2.2 rfl⟩

/-- C5, counterexample: a delete on a record whose stored URLs have a
single path segment does not fail with an UpstreamStoreError and does not
skip the destroys — it issues destroy calls whose identifiers contain the
literal string "undefined" and completes successfully. -/
theorem c5_counterexample :
    (deleteBook [bkMalformed] "b1" "owner" ⟨cloudAllOk, true⟩).result
      = .deleted "b1" "Book deleted successfully." ∧
    (deleteBook [bkMalformed] "b1" "owner" ⟨cloudAllOk, true⟩).events
      = [.destroy ⟨"undefined/undefined", false⟩,
         .destroy ⟨"undefined/xyz", true⟩,
         .dbDeleteOne "b1"] := by
  decide

/-- C5, amended: identifier derivation never fails and no
UpstreamStoreError is raised for a malformed stored URL; a URL with fewer
than two path segments yields an identifier whose missing parts are the
literal string "undefined", and the destroy IS attempted with that
identifier — in delete (the first issued event is the cover destroy with
the derived identifier, whatever it is) as well as in update (the old
cover destroy is issued with the derived identifier whenever a new cover
is staged). -/
theorem c5_malformed_url_destroy_attempted :
    (∀ url : String, (jsSplit url '/').length < 2 →
      (∃ t, coverImagePublicId url = "undefined" ++ "/" ++ t) ∧
      (∃ t, bookFilePublicId url = "undefined" ++ "/" ++ t)) ∧
    (∀ db bookId userId env book,
      db.find? (fun b => b.id == bookId) = some book →
      book.author = userId →
      (deleteBook db bookId userId env).events.head?
        = some (.destroy ⟨coverImagePublicId book.coverImage, false⟩)) ∧
    (∀ db bookId title genre description userId files env book f fs,
      db.find? (fun b => b.id == bookId) = some book →
      book.author = userId →
      files.coverImage = some (f :: fs) →
      Event.destroy ⟨coverImagePublicId book.coverImage, false⟩
        ∈ (updateBook db bookId title genre description userId files env).events) := by
  refine ⟨?_, ?_, ?_⟩
  · intro url hlen
    have h2 : jsAt (jsSplit url '/') 2 = none := by
      unfold jsAt
      apply List.getElem?_eq_none
      simp only [List.length_reverse]
      omega
    refine ⟨⟨((jsAt (jsSplit url '/') 1).bind
        fun s => jsAt (jsSplit s '.') 2).getD "undefined", ?_⟩,
      ⟨(jsAt (jsSplit url '/') 1).getD "undefined", ?_⟩⟩ <;>
      simp [coverImagePublicId, bookFilePublicId, h2, jsStr]
  · intro db bookId userId env book hfind hauth
    cases hd1 : env.cloud.destroySucceeds
        ⟨coverImagePublicId book.coverImage, false⟩ <;>
      cases hd2 : env.cloud.destroySucceeds
          ⟨bookFilePublicId book.file, true⟩ <;>
      cases hdb : env.deleteOk <;>
      simp [deleteBook, hfind, hauth, hd1, hd2, hdb]
  · intro db bookId title genre description userId files env book f fs
      hfind hauth hcov
    rcases updateAssetStep_cases (coverImagePublicId book.coverImage)
        book.coverImage "book-covers" (fun g => mimeSubtype g.mimetype) false
        files.coverImage env.cloud (coverImagePublicId_ne_empty _) with
      ⟨hs, heq⟩ | ⟨hs, heq⟩ |
        ⟨f2, fs2, hs, ⟨hd, heq⟩ | ⟨hd, hu, heq⟩ | ⟨url, hd, hu, heq⟩⟩
    · simp [hcov] at hs
    · simp [hcov] at hs
    · simp [updateBook, hfind, hauth, heq]
    · simp [updateBook, hfind, hauth, heq]
    · rcases updateAssetStep_cases (bookFilePublicId book.file)
          book.file "book-pdfs" (fun _ => "pdf") true
          files.file env.cloud (bookFilePublicId_ne_empty _) with
        ⟨hs2, heq2⟩ | ⟨hs2, heq2⟩ |
          ⟨g, gs, hs2, ⟨hd2, heq2⟩ | ⟨hd2, hu2, heq2⟩ | ⟨url2, hd2, hu2, heq2⟩⟩ <;>
        cases hres : env.updateResult <;>
        simp [updateBook, hfind, hauth, heq, heq2, hres]

theorem c5_witness :
    (∃ t, coverImagePublicId "abc" = "undefined" ++ "/" ++ t) ∧
    (deleteBook [bkMalformed] "b1" "owner" ⟨cloudAllOk, true⟩).events.head?
      = some (.destroy ⟨coverImagePublicId bkMalformed.coverImage, false⟩) ∧
    Event.destroy ⟨coverImagePublicId bkMalformed.coverImage, false⟩
      ∈ (updateBook [bkMalformed] "b1" "T" "G" "D" "owner" filesCoverOnly
          ⟨cloudAllOk, some (some bkMalformed)⟩).events :=
  have h := c5_malformed_url_destroy_attempted
  ⟨(h.1 "abc" (by decide)).1,
   h.2.1 [bkMalformed] "b1" "owner" ⟨cloudAllOk, true⟩ bkMalformed
     (by decide) (by decide),
   h.2.2 [bkMalformed] "b1" "T" "G" "D" "owner" filesCoverOnly
     ⟨cloudAllOk, some (some bkMalformed)⟩ bkMalformed coverFileW []
     (by decide) (by decide) rfl⟩

theorem update_cover_destroy_fail (db : List Book)
    (bookId title genre description userId : String) (files : ReqFiles)
    (env : UpdateEnv) (book : Book) (f : StagedFile) (fs : List StagedFile)
    (hfind : db.find? (fun b => b.id == bookId) = some book)
    (hauth : book.author = userId)
    (hcov : files.coverImage = some (f :: fs))
    (hd : env.cloud.destroySucceeds
      ⟨coverImagePublicId book.coverImage, false⟩ = false) :
    updateBook db bookId title genre description userId files env
      = ⟨.err 500 "Error while updating records.",
         [.destroy ⟨coverImagePublicId book.coverImage, false⟩], []⟩ := by
  have hstep := updateAssetStep_destroy_fail
    (coverImagePublicId book.coverImage) book.coverImage "book-covers"
    (fun g => mimeSubtype g.mimetype) false f fs env.cloud
    (coverImagePublicId_ne_empty _) hd
  simp [updateBook, hfind, hauth, hcov, hstep]

theorem update_file_destroy_fail (db : List Book)
    (bookId title genre description userId : String) (files : ReqFiles)
    (env : UpdateEnv) (book : Book) (g : StagedFile) (gs : List StagedFile)
    (hfind : db.find? (fun b => b.id == bookId) = some book)
    (hauth : book.author = userId)
    (hfile : files.file = some (g :: gs))
    (hd2 : env.cloud.destroySucceeds
      ⟨bookFilePublicId book.file, true⟩ = false) :
    (updateBook db bookId title genre description userId files env).result
      = .err 500 "Error while updating records." ∧
    ∀ u : UploadCall,
      Event.upload u
          ∈ (updateBook db bookId title genre description userId files env).events →
      u.raw = false := by
  have hstep2 := updateAssetStep_destroy_fail
    (bookFilePublicId book.file) book.file "book-pdfs"
    (fun _ => "pdf") true g gs env.cloud
    (bookFilePublicId_ne_empty _) hd2
  rcases updateAssetStep_cases (coverImagePublicId book.coverImage)
      book.coverImage "book-covers" (fun x => mimeSubtype x.mimetype) false
      files.coverImage env.cloud (coverImagePublicId_ne_empty _) with
    ⟨hs, heq⟩ | ⟨hs, heq⟩ |
      ⟨f2, fs2, hs, ⟨hd, heq⟩ | ⟨hd, hu, heq⟩ | ⟨url, hd, hu, heq⟩⟩ <;>
    simp [updateBook, hfind, hauth, heq, hfile, hstep2]

theorem update_cover_upload_first (db : List Book)
    (bookId title genre description userId : String) (files : ReqFiles)
    (env : UpdateEnv) (book : Book)
    (hfind : db.find? (fun b => b.id == bookId) = some book)
    (hauth : book.author = userId) :
    ∀ u : UploadCall,
      Event.upload u
          ∈ (updateBook db bookId title genre description userId files env).events →
      u.raw = false →
      ∃ post, (updateBook db bookId title genre description userId files env).events
        = Event.destroy ⟨coverImagePublicId book.coverImage, false⟩
            :: Event.upload u :: post := by
  intro u hmem hraw
  rcases updateAssetStep_cases (coverImagePublicId book.coverImage)
      book.coverImage "book-covers" (fun x => mimeSubtype x.mimetype) false
      files.coverImage env.cloud (coverImagePublicId_ne_empty _) with
    ⟨hs, heq⟩ | ⟨hs, heq⟩ |
      ⟨f2, fs2, hs, ⟨hd, heq⟩ | ⟨hd, hu, heq⟩ | ⟨url, hd, hu, heq⟩⟩ <;>
  rcases updateAssetStep_cases (bookFilePublicId book.file)
      book.file "book-pdfs" (fun _ => "pdf") true
      files.file env.cloud (bookFilePublicId_ne_empty _) with
    ⟨hs2, heq2⟩ | ⟨hs2, heq2⟩ |
      ⟨g, gs, hs2, ⟨hd2, heq2⟩ | ⟨hd2, hu2, heq2⟩ | ⟨url2, hd2, hu2, heq2⟩⟩ <;>
  cases hres : env.updateResult <;>
  simp [updateBook, hfind, hauth, heq, heq2, hres] at hmem <;>
  first
  | (rcases hmem with rfl | rfl
     · refine ⟨(updateBook db bookId title genre description userId
           files env).events.drop 2, ?_⟩
       simp [updateBook, hfind, hauth, heq, heq2, hres]
       done
     · simp at hraw
       done)
  | (rcases hmem with rfl
     refine ⟨(updateBook db bookId title genre description userId
         files env).events.drop 2, ?_⟩
     simp [updateBook, hfind, hauth, heq, heq2, hres]
     done)
  | (rcases hmem with rfl
     simp at hraw
     done)

theorem update_file_upload_after_destroy (db : List Book)
    (bookId title genre description userId : String) (files : ReqFiles)
    (env : UpdateEnv) (book : Book)
    (hfind : db.find? (fun b => b.id == bookId) = some book)
    (hauth : book.author = userId) :
    ∀ u : UploadCall,
      Event.upload u
          ∈ (updateBook db bookId title genre description userId files env).events →
      u.raw = true →
      ∃ pre post,
        (updateBook db bookId title genre description userId files env).events
          = pre ++ Event.destroy ⟨bookFilePublicId book.file, true⟩
              :: Event.upload u :: post := by
  intro u hmem hraw
  rcases updateAssetStep_cases (coverImagePublicId book.coverImage)
      book.coverImage "book-covers" (fun x => mimeSubtype x.mimetype) false
      files.coverImage env.cloud (coverImagePublicId_ne_empty _) with
    ⟨hs, heq⟩ | ⟨hs, heq⟩ |
      ⟨f2, fs2, hs, ⟨hd, heq⟩ | ⟨hd, hu, heq⟩ | ⟨url, hd, hu, heq⟩⟩ <;>
  rcases updateAssetStep_cases (bookFilePublicId book.file)
      book.file "book-pdfs" (fun _ => "pdf") true
      files.file env.cloud (bookFilePublicId_ne_empty _) with
    ⟨hs2, heq2⟩ | ⟨hs2, heq2⟩ |
      ⟨g, gs, hs2, ⟨hd2, heq2⟩ | ⟨hd2, hu2, heq2⟩ | ⟨url2, hd2, hu2, heq2⟩⟩ <;>
  cases hres : env.updateResult <;>
  simp [updateBook, hfind, hauth, heq, heq2, hres] at hmem <;>
  first
  | (rcases hmem with rfl | rfl
     · simp at hraw
       done
     · refine ⟨(updateAssetStep (coverImagePublicId book.coverImage)
           book.coverImage "book-covers" (fun x => mimeSubtype x.mimetype)
           false files.coverImage env.cloud).events,
         (updateBook db bookId title genre description userId
           files env).events.drop
           ((updateAssetStep (coverImagePublicId book.coverImage)
             book.coverImage "book-covers" (fun x => mimeSubtype x.mimetype)
             false files.coverImage env.cloud).events.length + 2), ?_⟩
       simp [updateBook, hfind, hauth, heq, heq2, hres]
       done)
  | (rcases hmem with rfl
     refine ⟨(updateAssetStep (coverImagePublicId book.coverImage)
         book.coverImage "book-covers" (fun x => mimeSubtype x.mimetype)
         false files.coverImage env.cloud).events,
       (updateBook db bookId title genre description userId
         files env).events.drop
         ((updateAssetStep (coverImagePublicId book.coverImage)
           book.coverImage "book-covers" (fun x => mimeSubtype x.mimetype)
           false files.coverImage env.cloud).events.length + 2), ?_⟩
     simp [updateBook, hfind, hauth, heq, heq2, hres]
     done)
  | (rcases hmem with rfl
     simp at hraw
     done)

/-- C6: in an update of an existing, owned record, for each asset kind
that stages a new file the destroy of the old remote blob is issued before
the upload of the new file, and a failing destroy aborts the whole update
with 500 before any upload of that kind: (1) if the cover destroy fails
the update's only event is that destroy — no upload at all, nothing
persisted, nothing unlinked; (2) if the document destroy fails the update
answers 500 and every upload in the trace is image-kind (none raw);
(3) every image-kind upload in the trace is immediately preceded by the
cover destroy, which is the first event; (4) every raw upload in the
trace is immediately preceded by the document destroy. -/
theorem c6_destroy_before_upload (db : List Book)
    (bookId title genre description userId : String) (files : ReqFiles)
    (env : UpdateEnv) (book : Book)
    (hfind : db.find? (fun b => b.id == bookId) = some book)
    (hauth : book.author = userId) :
    (∀ f fs, files.coverImage = some (f :: fs) →
      env.cloud.destroySucceeds
          ⟨coverImagePublicId book.coverImage, false⟩ = false →
      updateBook db bookId title genre description userId files env
        = ⟨.err 500 "Error while updating records.",
           [.destroy ⟨coverImagePublicId book.coverImage, false⟩], []⟩) ∧
    (∀ g gs, files.file = some (g :: gs) →
      env.cloud.destroySucceeds ⟨bookFilePublicId book.file, true⟩ = false →
      (updateBook db bookId title genre description userId files env).result
        = .err 500 "Error while updating records." ∧
      ∀ u : UploadCall,
        Event.upload u
            ∈ (updateBook db bookId title genre description userId files env).events →
        u.raw = false) ∧
    (∀ u : UploadCall,
      Event.upload u
          ∈ (updateBook db bookId title genre description userId files env).events →
      u.raw = false →
      ∃ post, (updateBook db bookId title genre description userId files env).events
        = Event.destroy ⟨coverImagePublicId book.coverImage, false⟩
            :: Event.upload u :: post) ∧
    (∀ u : UploadCall,
      Event.upload u
          ∈ (updateBook db bookId title genre description userId files env).events →
      u.raw = true →
      ∃ pre post,
        (updateBook db bookId title genre description userId files env).events
          = pre ++ Event.destroy ⟨bookFilePublicId book.file, true⟩
              :: Event.upload u :: post) :=
  ⟨fun f fs hcov hd => update_cover_destroy_fail db bookId title genre
      description userId files env book f fs hfind hauth hcov hd,
   fun g gs hfile hd2 => update_file_destroy_fail db bookId title genre
      description userId files env book g gs hfind hauth hfile hd2,
   update_cover_upload_first db bookId title genre description userId
      files env book hfind hauth,
   update_file_upload_after_destroy db bookId title genre description userId
      files env book hfind hauth⟩

theorem c6_witness :
    updateBook [bkW] "b1" "T2" "G" "D" "owner" filesBothW
        ⟨cloudDestroyFails, some (some bkW)⟩
      = ⟨.err 500 "Error while updating records.",
         [.destroy ⟨"book-covers/abc", false⟩], []⟩ := by
  have h := c6_destroy_before_upload [bkW] "b1" "T2" "G" "D" "owner"
    filesBothW ⟨cloudDestroyFails, some (some bkW)⟩ bkW (by decide) (by decide)
  rw [h.1 coverFileW [] rfl rfl]
  rfl

theorem createBook_success_shape (title genre description userId : String)
    (files : ReqFiles) (env : CreateEnv) (newId : String)
    (h : (createBook title genre description userId files env).result
      = .created newId) :
    ∃ c cs b bs,
      files.coverImage = some (c :: cs) ∧ files.file = some (b :: bs) ∧
      (createBook title genre description userId files env).unlinked
        = [tempPath c.filename, tempPath b.filename] := by
  rcases files with ⟨fc, ff⟩
  rcases fc with _ | fcl
  · simp [createBook] at h
  rcases fcl with _ | ⟨c, cs⟩
  · simp [createBook] at h
  cases hu : env.cloud.uploadResult
      ⟨c.filename, "book-covers", mimeSubtype c.mimetype, false⟩ with
  | none => simp [createBook, hu] at h
  | some coverUrl =>
    rcases ff with _ | ffl
    · simp [createBook, hu] at h
    rcases ffl with _ | ⟨b, bs⟩
    · simp [createBook, hu] at h
    cases hu2 : env.cloud.uploadResult
        ⟨b.filename, "book-pdfs", "pdf", true⟩ with
    | none => simp [createBook, hu, hu2] at h
    | some fileUrl =>
      cases hcid : env.createId with
      | none => simp [createBook, hu, hu2, hcid] at h
      | some newId2 =>
        exact ⟨c, cs, b, bs, rfl, rfl, by simp [createBook, hu, hu2, hcid]⟩

/-- C1, counterexample: a create invocation staging only the cover image
exits with 400 "Book file is required." while the staged cover temp file
is still on local storage — temp files are NOT deleted on every exit
path. -/
theorem c1_counterexample :
    (createBook "t" "g" "d" "u" filesCoverOnly ⟨cloudAllOk, some "id1"⟩).result
      = .err 400 "Book file is required." ∧
    remainingTemps filesCoverOnly
        (createBook "t" "g" "d" "u" filesCoverOnly ⟨cloudAllOk, some "id1"⟩)
      = ["public/data/uploads/c.png"] := by
  decide

/-- C1, amended: temp files are unlinked only on the paths that reach the
unlink calls: a create or update invocation that completes successfully
(given multer\'s one-file-per-field cap) leaves no staged temp path on
local storage; on validation or upstream-failure exit paths the staged
files not yet unlinked remain (see the counterexample). -/
theorem c1_success_cleanup :
    (∀ title genre description userId files env newId,
      (∀ l, files.coverImage = some l → l.length ≤ 1) →
      (∀ l, files.file = some l → l.length ≤ 1) →
      (createBook title genre description userId files env).result
        = .created newId →
      remainingTemps files
        (createBook title genre description userId files env) = []) ∧
    (∀ db bookId title genre description userId files env r,
      (∀ l, files.coverImage = some l → l.length ≤ 1) →
      (∀ l, files.file = some l → l.length ≤ 1) →
      (updateBook db bookId title genre description userId files env).result
        = .updated r →
      remainingTemps files
        (updateBook db bookId title genre description userId files env) = []) := by
  constructor
  · intro title genre description userId files env newId hc hf2 hres
    obtain ⟨c, cs, b, bs, hcov, hfile, hunl⟩ :=
      createBook_success_shape title genre description userId files env newId hres
    have hcs : cs = [] := by
      have h1 := hc _ hcov
      rw [List.length_cons] at h1
      exact List.length_eq_zero.mp (by omega)
    have hbs : bs = [] := by
      have h1 := hf2 _ hfile
      rw [List.length_cons] at h1
      exact List.length_eq_zero.mp (by omega)
    subst hcs hbs
    simp [remainingTemps, stagedPaths, hcov, hfile, hunl]
  · intro db bookId title genre description userId files env r hc hf2 hres
    cases hfind : db.find? (fun b => b.id == bookId) with
    | none => simp [updateBook, hfind] at hres
    | some book =>
      by_cases hauth : book.author = userId
      · rcases updateAssetStep_cases (coverImagePublicId book.coverImage)
            book.coverImage "book-covers" (fun x => mimeSubtype x.mimetype) false
            files.coverImage env.cloud (coverImagePublicId_ne_empty _) with
          ⟨hs, heq⟩ | ⟨hs, heq⟩ |
            ⟨f2, fs2, hs, ⟨hd, heq⟩ | ⟨hd, hu, heq⟩ | ⟨url, hd, hu, heq⟩⟩
        · rcases updateAssetStep_cases (bookFilePublicId book.file)
              book.file "book-pdfs" (fun _ => "pdf") true
              files.file env.cloud (bookFilePublicId_ne_empty _) with
            ⟨hs2, heq2⟩ | ⟨hs2, heq2⟩ |
              ⟨g, gs, hs2, ⟨hd2, heq2⟩ | ⟨hd2, hu2, heq2⟩ | ⟨url2, hd2, hu2, heq2⟩⟩ <;>
          cases hres2 : env.updateResult <;>
          first
          | (simp [updateBook, hfind, hauth, heq, heq2, hres2] at hres
             done)
          | (rw [hs] at heq
             rw [hs2] at heq2
             simp [remainingTemps, stagedPaths, updateBook, hfind, hauth,
               heq, heq2, hres2, hs, hs2]
             done)
          | (have hgs : gs = [] := by
               have h1 := hf2 _ hs2
               rw [List.length_cons] at h1
               exact List.length_eq_zero.mp (by omega)
             subst hgs
             rw [hs] at heq
             rw [hs2] at heq2
             simp [remainingTemps, stagedPaths, updateBook, hfind, hauth,
               heq, heq2, hres2, hs, hs2]
             done)
        · simp [updateBook, hfind, hauth, heq] at hres
        · simp [updateBook, hfind, hauth, heq] at hres
        · simp [updateBook, hfind, hauth, heq] at hres
        · rcases updateAssetStep_cases (bookFilePublicId book.file)
              book.file "book-pdfs" (fun _ => "pdf") true
              files.file env.cloud (bookFilePublicId_ne_empty _) with
            ⟨hs2, heq2⟩ | ⟨hs2, heq2⟩ |
              ⟨g, gs, hs2, ⟨hd2, heq2⟩ | ⟨hd2, hu2, heq2⟩ | ⟨url2, hd2, hu2, heq2⟩⟩ <;>
          cases hres2 : env.updateResult <;>
          first
          | (simp [updateBook, hfind, hauth, heq, heq2, hres2] at hres
             done)
          | (have hfs2 : fs2 = [] := by
               have h1 := hc _ hs
               rw [List.length_cons] at h1
               exact List.length_eq_zero.mp (by omega)
             subst hfs2
             rw [hs] at heq
             rw [hs2] at heq2
             simp [remainingTemps, stagedPaths, updateBook, hfind, hauth,
               heq, heq2, hres2, hs, hs2]
             done)
          | (have hfs2 : fs2 = [] := by
               have h1 := hc _ hs
               rw [List.length_cons] at h1
               exact List.length_eq_zero.mp (by omega)
             have hgs : gs = [] := by
               have h1 := hf2 _ hs2
               rw [List.length_cons] at h1
               exact List.length_eq_zero.mp (by omega)
             subst hfs2
             subst hgs
             rw [hs] at heq
             rw [hs2] at heq2
             simp [remainingTemps, stagedPaths, updateBook, hfind, hauth,
               heq, heq2, hres2, hs, hs2]
             done)
      · simp [updateBook, hfind, hauth] at hres

theorem c1_witness :
    remainingTemps filesBothW
        (createBook "t" "g" "d" "u" filesBothW ⟨cloudAllOk, some "id1"⟩) = [] ∧
    remainingTemps filesCoverOnly
        (updateBook [bkW] "b1" "T2" "G" "D" "owner" filesCoverOnly
          ⟨cloudAllOk, some (some bkW)⟩) = [] :=
  have h := c1_success_cleanup
  ⟨h.1 "t" "g" "d" "u" filesBothW ⟨cloudAllOk, some "id1"⟩ "id1"
     (by intro l hl; injection hl with h2; subst h2; decide)
     (by intro l hl; injection hl with h2; subst h2; decide)
     (by decide),
   h.2 [bkW] "b1" "T2" "G" "D" "owner" filesCoverOnly
     ⟨cloudAllOk, some (some bkW)⟩ (some bkW)
     (by intro l hl; injection hl with h2; subst h2; decide)
     (by intro l hl; cases hl)
     (by decide)⟩

end EBook
